import Mathlib

set_option maxRecDepth 2048

/-!
Verification development for the svg-renderer repository (src/src/index.ts).

The embedding models:
  * `evalExpression` — the string-rewriting pipeline (percentage-literal
    rewrite, textual substitution of `width`/`height`, the vacuous
    `100 → 100` replacement) followed by evaluation of the resulting text
    as a JavaScript arithmetic expression, with the `try/catch` fallback
    to `0`;
  * `createSvgPaths` — per-command compilation of symbolic operands to
    integer coordinates and serialization to the `d`-string;
  * `createSvgElement` — the `data-width`/`data-height` dimension cache
    and the render/skip decision;
  * `setupSvgRenderer` — the session state machine: the resize observer,
    the transition/animation polling loops with their `running` flags and
    once-listeners, `el.render`, and `destroy`.

Numbers are modelled as JavaScript numbers restricted to exactly
representable values: `JNum` is a tagged union of an exact rational, the
two signed infinities and NaN.  All inputs appearing in the theorems
below evaluate exactly in double precision, so exact rational arithmetic
agrees with the host's arithmetic on them.  Negative zero is not
distinguished from zero (the two are `==`-equal in the host and have
equal string forms).  The evaluator fragment covers the arithmetic
sub-language the renderer generates: numeric literals (strict mode, so
legacy octal-looking literals are rejected), `NaN` and `Infinity`,
unary `+`/`-`, binary `+ - * / %`, and parentheses; text outside this
fragment is modelled as an evaluation error (the host throws on it),
and the adjacent `--`/`++`/`**` token forms that the host lexes
specially are rejected as in the host.  The exponentiation operator and
the comma operator, which no rewritten operand uses, are outside the
fragment.

The dimension cache is stored by the source as stringified numbers in
element attributes and compared by string equality; since the host's
number-to-string conversion is injective on numbers, the cache is
modelled as the numbers themselves (`Option ℚ`) compared by value.
-/

/-- JavaScript numbers restricted to exactly representable values:
an exact rational, a signed infinity, or NaN. -/
inductive JNum where
  | fin (q : ℚ)
  | inf (pos : Bool)
  | nan
deriving DecidableEq, Repr

/-- JavaScript unary minus. -/
def jneg : JNum → JNum
  | .fin q => .fin (-q)
  | .inf p => .inf (!p)
  | .nan => .nan

/-- JavaScript addition on the modelled values. -/
def jadd : JNum → JNum → JNum
  | .nan, _ => .nan
  | _, .nan => .nan
  | .fin a, .fin b => .fin (a + b)
  | .fin _, .inf p => .inf p
  | .inf p, .fin _ => .inf p
  | .inf p, .inf q => if p = q then .inf p else .nan

/-- JavaScript subtraction on the modelled values. -/
def jsub (a b : JNum) : JNum := jadd a (jneg b)

/-- JavaScript multiplication on the modelled values. -/
def jmul : JNum → JNum → JNum
  | .nan, _ => .nan
  | _, .nan => .nan
  | .fin a, .fin b => .fin (a * b)
  | .fin a, .inf p => if a = 0 then .nan else .inf (if 0 < a then p else !p)
  | .inf p, .fin a => if a = 0 then .nan else .inf (if 0 < a then p else !p)
  | .inf p, .inf q => .inf (p == q)

/-- JavaScript division on the modelled values (zero is treated as
positive zero; negative zero is not modelled). -/
def jdiv : JNum → JNum → JNum
  | .nan, _ => .nan
  | _, .nan => .nan
  | .inf _, .inf _ => .nan
  | .inf p, .fin b => if 0 ≤ b then .inf p else .inf (!p)
  | .fin _, .inf _ => .fin 0
  | .fin a, .fin b =>
      if b = 0 then (if a = 0 then .nan else .inf (decide (0 < a)))
      else .fin (a / b)

/-- Truncation toward zero of an exact rational, as computed by the
host when stringifying and integer-parsing a number in the ordinary
decimal range. -/
def ratTrunc (q : ℚ) : ℤ :=
  if 0 ≤ q.num then q.num / (q.den : ℤ) else -((-q.num) / (q.den : ℤ))

/-- JavaScript remainder on the modelled values. -/
def jrem : JNum → JNum → JNum
  | .nan, _ => .nan
  | _, .nan => .nan
  | .inf _, _ => .nan
  | .fin a, .inf _ => .fin a
  | .fin a, .fin b => if b = 0 then .nan else .fin (a - b * (ratTrunc (a / b) : ℚ))

/-- Decimal digit characters accumulated to a natural number. -/
def digitsToNat (l : List Char) : Nat :=
  l.foldl (fun a c => a * 10 + (c.toNat - 48)) 0

/-- Fractional decimal digits of `num / den` (`num < den`), with fuel.
Terminates exactly for the decimal fractions produced by the host's
number-to-string conversion on the values arising here. -/
def fracDigits : Nat → Nat → Nat → List Char
  | 0, _, _ => []
  | _, 0, _ => []
  | fuel + 1, num, den =>
      Char.ofNat (48 + num * 10 / den) :: fracDigits fuel (num * 10 % den) den

/-- The host's number-to-string conversion, on exact rationals whose
shortest representation is their exact decimal expansion (all values
substituted or interpolated by the renderer in the claims below). -/
def numToString (q : ℚ) : String :=
  let sign := if q < 0 then "-" else ""
  let aq := if q < 0 then -q else q
  let ip : ℤ := aq.num / (aq.den : ℤ)
  let fracNum : ℤ := aq.num - ip * (aq.den : ℤ)
  if fracNum = 0 then sign ++ toString ip
  else sign ++ toString ip ++ "." ++ String.mk (fracDigits 64 fracNum.toNat aq.den)

/-- The host's number-to-string conversion on the modelled values. -/
def jnumToString : JNum → String
  | .fin q => numToString q
  | .inf true => "Infinity"
  | .inf false => "-Infinity"
  | .nan => "NaN"

/-- JavaScript whitespace skipped by the lexer and by parseFloat. -/
def skipWs (l : List Char) : List Char :=
  l.dropWhile (fun c => c = ' ' ∨ c = '\t' ∨ c = '\n' ∨ c = '\r')

/-- Prefix parse of an unsigned decimal with optional fraction, as
consumed by the host's parseFloat (lenient: stops at the first
character that cannot extend the number). -/
def parseFloatBody (l : List Char) : Option (ℚ × List Char) :=
  let intRun := l.takeWhile Char.isDigit
  let rest1 := l.dropWhile Char.isDigit
  let fracRun := match rest1 with
    | '.' :: t => t.takeWhile Char.isDigit
    | _ => []
  let rest2 := match rest1 with
    | '.' :: t => t.dropWhile Char.isDigit
    | _ => rest1
  if intRun = [] ∧ fracRun = [] then none
  else
    some ((digitsToNat intRun : ℚ) + (digitsToNat fracRun : ℚ) / (10 ^ fracRun.length : ℚ),
      rest2)

/-- Optional exponent continuation of a decimal; in a numeric literal a
bare `e` with no digits is a syntax error, which is how this is used by
the literal parser, while parseFloat simply declines to consume it. -/
def parseExpPart (m : ℚ) (t : List Char) : Option (ℚ × List Char) :=
  let neg := match t with
    | '-' :: _ => true
    | _ => false
  let t2 := match t with
    | '-' :: u => u
    | '+' :: u => u
    | _ => t
  let ds := t2.takeWhile Char.isDigit
  let rest := t2.dropWhile Char.isDigit
  if ds = [] then none
  else
    let e := digitsToNat ds
    some ((if neg then m / 10 ^ e else m * 10 ^ e), rest)

/-- The host's parseFloat: skip whitespace, optional sign, `Infinity`
or a decimal prefix with optional well-formed exponent; NaN when no
number can be read. -/
def jsParseFloat (s : String) : JNum :=
  let l := skipWs s.data
  let sgn := match l with
    | '-' :: _ => true
    | _ => false
  let l2 := match l with
    | '-' :: t => t
    | '+' :: t => t
    | _ => l
  if "Infinity".data.isPrefixOf l2 then .inf (!sgn)
  else
    match parseFloatBody l2 with
    | none => .nan
    | some (m, rest) =>
        let v := match rest with
          | 'e' :: t =>
              (match parseExpPart m t with
               | some (v2, _) => v2
               | none => m)
          | 'E' :: t =>
              (match parseExpPart m t with
               | some (v2, _) => v2
               | none => m)
          | _ => m
        .fin (if sgn then -v else v)

/-- Strict-mode numeric literal: decimal digits with optional fraction
and exponent; a leading zero followed by another digit is rejected
(legacy octal form, a syntax error under "use strict"), and an
exponent marker must be followed by digits. -/
def parseNumLit (l : List Char) : Option (JNum × List Char) :=
  let intRun := l.takeWhile Char.isDigit
  let rest1 := l.dropWhile Char.isDigit
  if 1 < intRun.length ∧ intRun.head? = some '0' then none
  else
    let fracRun := match rest1 with
      | '.' :: t => t.takeWhile Char.isDigit
      | _ => []
    let rest2 := match rest1 with
      | '.' :: t => t.dropWhile Char.isDigit
      | _ => rest1
    let hasDot : Bool := match rest1 with
      | '.' :: _ => true
      | _ => false
    if intRun = [] ∧ (fracRun = [] ∨ hasDot = false) then none
    else
      let m : ℚ := (digitsToNat intRun : ℚ) + (digitsToNat fracRun : ℚ) / (10 ^ fracRun.length : ℚ)
      match rest2 with
      | 'e' :: t =>
          (match parseExpPart m t with
           | some (v, r) => some (.fin v, r)
           | none => none)
      | 'E' :: t =>
          (match parseExpPart m t with
           | some (v, r) => some (.fin v, r)
           | none => none)
      | _ => some (.fin m, rest2)

/-- First character of an identifier. -/
def isIdentStart (c : Char) : Bool := c.isAlpha || c = '_' || c = '$'

/-- Subsequent characters of an identifier. -/
def isIdentChar (c : Char) : Bool := c.isAlphanum || c = '_' || c = '$'

/-- The level of the recursive-descent arithmetic parser currently
being parsed; the two `Rest` levels carry the left operand already
accumulated (left associativity). -/
inductive ParseLevel where
  | addSub
  | addSubRest (a : JNum)
  | mulDiv
  | mulDivRest (a : JNum)
  | unary
  | primary
deriving Repr

/-- Recursive-descent parser-evaluator for the arithmetic fragment, as
a single fuel-indexed function so that it reduces definitionally.
Additive and multiplicative levels are left associative; adjacent
`++`/`--` lex as the increment/decrement tokens in the host and are
syntax errors, as is `**` (exponentiation, which no rewritten operand
produces); an identifier other than `NaN`/`Infinity` is an unbound
name, a thrown reference error in the host. -/
def parseArith : Nat → ParseLevel → List Char → Option (JNum × List Char)
  | 0, _, _ => none
  | fuel + 1, .addSub, l =>
      (match parseArith fuel .mulDiv l with
       | none => none
       | some (a, r) => parseArith fuel (.addSubRest a) r)
  | fuel + 1, .addSubRest a, r =>
      (match skipWs r with
       | '+' :: '+' :: _ => none
       | '+' :: t =>
           (match parseArith fuel .mulDiv t with
            | none => none
            | some (b, r2) => parseArith fuel (.addSubRest (jadd a b)) r2)
       | '-' :: '-' :: _ => none
       | '-' :: t =>
           (match parseArith fuel .mulDiv t with
            | none => none
            | some (b, r2) => parseArith fuel (.addSubRest (jsub a b)) r2)
       | _ => some (a, r))
  | fuel + 1, .mulDiv, l =>
      (match parseArith fuel .unary l with
       | none => none
       | some (a, r) => parseArith fuel (.mulDivRest a) r)
  | fuel + 1, .mulDivRest a, r =>
      (match skipWs r with
       | '*' :: '*' :: _ => none
       | '*' :: t =>
           (match parseArith fuel .unary t with
            | none => none
            | some (b, r2) => parseArith fuel (.mulDivRest (jmul a b)) r2)
       | '/' :: t =>
           (match parseArith fuel .unary t with
            | none => none
            | some (b, r2) => parseArith fuel (.mulDivRest (jdiv a b)) r2)
       | '%' :: t =>
           (match parseArith fuel .unary t with
            | none => none
            | some (b, r2) => parseArith fuel (.mulDivRest (jrem a b)) r2)
       | _ => some (a, r))
  | fuel + 1, .unary, l =>
      (match skipWs l with
       | '-' :: '-' :: _ => none
       | '-' :: t =>
           (match parseArith fuel .unary t with
            | none => none
            | some (v, r) => some (jneg v, r))
       | '+' :: '+' :: _ => none
       | '+' :: t => parseArith fuel .unary t
       | l2 => parseArith fuel .primary l2)
  | fuel + 1, .primary, l =>
      (match l with
       | '(' :: t =>
           (match parseArith fuel .addSub t with
            | none => none
            | some (v, r) =>
               match skipWs r with
               | ')' :: r2 => some (v, r2)
               | _ => none)
       | c :: _ =>
           if isIdentStart c then
             let run := l.takeWhile isIdentChar
             let rest := l.dropWhile isIdentChar
             if run = "NaN".data then some (.nan, rest)
             else if run = "Infinity".data then some (.inf true, rest)
             else none
           else parseNumLit l
       | [] => none)

/-- Evaluation of the rewritten text as a JavaScript expression
(restricted to the arithmetic fragment): `none` models a thrown parse
or evaluation error, caught by `evalExpression`. -/
def jsEvalArith (s : String) : Option JNum :=
  match parseArith (8 * (s.data.length + 2)) .addSub s.data with
  | some (v, r) => if skipWs r = [] then some v else none
  | none => none

example : jsEvalArith "10* 200 / 100" = some (.fin 20) := by with_unfolding_all decide
example : jsEvalArith "1/0" = some (.inf true) := by with_unfolding_all decide
example : jsEvalArith "200 +" = none := by with_unfolding_all decide

/-- Left-to-right non-overlapping replacement of every occurrence of
the substring `pat` (the behaviour of the host's global-regex string
replacement when the pattern is a plain substring), with fuel. -/
def replaceListAux (pat rep : List Char) : Nat → List Char → List Char
  | 0, l => l
  | _, [] => []
  | fuel + 1, c :: rest =>
      if pat.isPrefixOf (c :: rest) then
        rep ++ replaceListAux pat rep fuel ((c :: rest).drop pat.length)
      else
        c :: replaceListAux pat rep fuel rest

/-- String form of `replaceListAux`. -/
def replaceSub (pat rep s : String) : String :=
  ⟨replaceListAux pat.data rep.data (s.data.length + 1) s.data⟩

/-- Replacement of every occurrence of a single character by a string
(the `/%/g` replacement in `createSvgPaths`). -/
def replaceChar (c : Char) (rep : String) (s : String) : String :=
  ⟨s.data.foldr (fun a acc => if a = c then rep.data ++ acc else a :: acc) []⟩

/-- Digit-or-dot characters, the character class of the
percentage-literal pattern. -/
def isDigitDot (c : Char) : Bool := c.isDigit || c = '.'

/-- The first replacement of `evalExpression`: every maximal digit/dot
run immediately followed by a percent sign becomes the parenthesized
fraction text interpolating the run's parseFloat value (the pattern's
character class is disjoint from the percent sign, so the regex's
greedy backtracking search coincides with this maximal-run scan). -/
def percentLitAux : Nat → List Char → List Char
  | 0, l => l
  | _, [] => []
  | fuel + 1, c :: rest =>
      if isDigitDot c then
        let run := (c :: rest).takeWhile isDigitDot
        let after := (c :: rest).dropWhile isDigitDot
        match after with
        | '%' :: tail =>
            "(".data ++ (jnumToString (jsParseFloat ⟨run⟩)).data ++ " / 100)".data ++
              percentLitAux fuel tail
        | _ => run ++ percentLitAux fuel after
      else c :: percentLitAux fuel rest

/-- String form of the percentage-literal rewrite. -/
def percentLitRewrite (s : String) : String :=
  ⟨percentLitAux (s.data.length + 1) s.data⟩

/-- The full rewriting pipeline of `evalExpression`: percentage
literals, then textual substitution of `width` and `height` by their
stringified values, then the vacuous replacement of `100` by itself. -/
def replacedExpr (expr : String) (width height : ℚ) : String :=
  replaceSub "100" "100"
    (replaceSub "height" (numToString height)
      (replaceSub "width" (numToString width)
        (percentLitRewrite expr)))

/-- `evalExpression`: evaluate the rewritten text; any thrown parse or
evaluation error is caught and becomes the number `0`. -/
def evalExpression (expr : String) (width height : ℚ) : JNum :=
  match jsEvalArith (replacedExpr expr width height) with
  | some v => v
  | none => .fin 0

/-- Command tags of the path description (`"M"` or `"L"`). -/
inductive CmdTag where
  | M
  | L
deriving DecidableEq, Repr

/-- Serialization of a command tag. -/
def CmdTag.str : CmdTag → String
  | .M => "M"
  | .L => "L"

/-- Style attributes of one path record (opaque passthrough). -/
structure PathStyle where
  strokeWidth : String
  stroke : String
  fill : String
deriving DecidableEq, Repr

/-- One entry of the `Paths` array: optional name, optional visibility
flag (the source field is called `show`, a reserved word here), style,
and the command list with symbolic operands. -/
structure PathRec where
  name : Option String := none
  visible : Option Bool := none
  style : PathStyle
  path : List (CmdTag × String × String)
deriving DecidableEq, Repr

/-- A compiled record: the same metadata with the command list replaced
by the serialized `d`-string. -/
structure CompiledRec where
  name : Option String
  visible : Option Bool
  style : PathStyle
  path : String
deriving DecidableEq, Repr

/-- The operand test of `createSvgPaths`: a percent sign or any of the
four arithmetic operator characters. -/
def hasPercentOrOperator (s : String) : Bool :=
  s.data.any fun c => c = '%' || c = '+' || c = '-' || c = '*' || c = '/'

/-- The host's parseInt applied to a number: the number is stringified
and its leading integer part is parsed, which truncates toward zero for
values in the ordinary decimal range; a non-finite value stringifies to
`Infinity` or `NaN`, whose integer parse is NaN (`none`). -/
def jsParseIntNum : JNum → Option ℤ
  | .fin q => some (ratTrunc q)
  | _ => none

/-- Serialization of a parsed coordinate into the `d`-string. -/
def coordToString : Option ℤ → String
  | some i => toString i
  | none => "NaN"

/-- Compilation of one operand: if it contains a percent sign or an
operator character, rewrite each percent sign to the axis text
(`"* width / 100"` for x, `"* height / 100"` for y) and evaluate;
otherwise parse it as a literal number string; then integer-parse. -/
def compileCoord (axisReplacement : String) (s : String) (width height : ℚ) : Option ℤ :=
  let parsed : JNum :=
    if hasPercentOrOperator s then
      evalExpression (replaceChar '%' axisReplacement s) width height
    else jsParseFloat s
  jsParseIntNum parsed

/-- Compilation and serialization of one command. -/
def compileCmd (width height : ℚ) : CmdTag × String × String → String
  | (tag, x, y) =>
      tag.str ++ " " ++ coordToString (compileCoord "* width / 100" x width height) ++
        "," ++ coordToString (compileCoord "* height / 100" y width height)

/-- `createSvgPaths`: each record's commands are compiled independently
and joined with single spaces; name, visibility and style pass through
unchanged. -/
def createSvgPaths (paths : List PathRec) (width height : ℚ) : List CompiledRec :=
  paths.map fun p =>
    { name := p.name, visible := p.visible, style := p.style,
      path := String.intercalate " " (p.path.map (compileCmd width height)) }

example : compileCoord "* width / 100" "10%" 200 100 = some 20 := by
  with_unfolding_all decide
example : compileCoord "* width / 100" "50%" 200 100 = some 100 := by
  with_unfolding_all decide
example : compileCoord "* height / 100" "50%" 200 100 = some 50 := by
  with_unfolding_all decide
example : compileCoord "* width / 100" "1/0" 200 100 = none := by
  with_unfolding_all decide
example : compileCoord "* width / 100" "width/2-5" 200 100 = some 95 := by
  with_unfolding_all decide
example : evalExpression "width +" 200 100 = .fin 0 := by
  with_unfolding_all decide
example : replacedExpr "maxheight" 200 100 = "max100" := by
  with_unfolding_all decide
example : replacedExpr "widthheight" 200 100 = "200100" := by
  with_unfolding_all decide

/-- The `data-width`/`data-height` attributes of the target element.
The source stores stringified numbers and compares by string equality;
the host's number-to-string conversion is injective on numbers, so the
attributes are modelled as the numbers themselves, `none` standing for
an absent attribute (which compares unequal to every stringified
number, as `null` does in the source's loose comparison). -/
structure ElemAttrs where
  dataW : Option ℚ := none
  dataH : Option ℚ := none
deriving DecidableEq, Repr

/-- `createSvgElement`, reduced to its cache discipline: commit (clear
and rebuild the paths, i.e. one sink invocation) exactly when the
sampled dimensions differ from the stored attributes in either
component, updating the attributes on commit; otherwise do nothing. -/
def createSvgElementStep (a : ElemAttrs) (w h : ℚ) : ElemAttrs × Bool :=
  if a.dataW = some w ∧ a.dataH = some h then (a, false)
  else ({ dataW := some w, dataH := some h }, true)

/-- One polling loop spawned by a `transitionstart`/`animationstart`
handler: its mutable `running` flag, and whether its once-registered
end listener is still pending. -/
structure LoopState where
  running : Bool
  endPending : Bool
deriving DecidableEq, Repr

/-- A rendering session as set up by `setupSvgRenderer`: the element's
cache attributes, the current boxes of the target element and of the
watched ancestor, whether the resize observer is still connected, and
the polling loops spawned so far for each continuous source. -/
structure Session where
  attrs : ElemAttrs
  elW : ℚ
  elH : ℚ
  parW : ℚ
  parH : ℚ
  observerConnected : Bool
  transLoops : List LoopState
  animLoops : List LoopState
deriving DecidableEq, Repr

/-- `setupSvgRenderer`: observe the element and attach the listeners.
The element's attributes are whatever the element already carries —
setup never clears them. -/
def setupSvgRenderer (attrs : ElemAttrs) (elW elH parW parH : ℚ) : Session :=
  { attrs, elW, elH, parW, parH,
    observerConnected := true, transLoops := [], animLoops := [] }

/-- The session's `render` closure: sample the target element's box and
run `createSvgElement` against the cache.  The second component counts
sink invocations (`1` on commit, `0` on skip). -/
def renderStep (s : Session) : Session × Nat :=
  let r := createSvgElementStep s.attrs s.elW s.elH
  ({ s with attrs := r.1 }, if r.2 then 1 else 0)

/-- The end-listener comparison: the watched ancestor's current
stringified box against the element's cache attributes (absent
attributes compare unequal). -/
def ancestorMatchesCache (s : Session) : Bool :=
  decide (s.attrs.dataW = some s.parW) && decide (s.attrs.dataH = some s.parH)

/-- Effect of a fired end notification on one loop: a pending once
listener is consumed, and it clears `running` exactly when the
ancestor's box equals the cache; otherwise the loop keeps its state. -/
def endNotifyLoop (eq : Bool) (l : LoopState) : LoopState :=
  if l.endPending then { running := if eq then false else l.running, endPending := false }
  else l

/-- One animation frame's worth of a loop list: every loop whose
`running` flag is set re-renders (and schedules the next frame); the
render/skip decisions thread the cache left to right. -/
def frameLoops (loops : List LoopState) (s : Session) : Session × Nat :=
  loops.foldl
    (fun acc l =>
      if l.running then
        let r := renderStep acc.1
        (r.1, acc.2 + r.2)
      else acc)
    (s, 0)

/-- Environment and listener events delivered to a session. -/
inductive Ev where
  | resize
  | renderCall
  | transStart
  | transEnd
  | animStart
  | animEnd
  | frame
  | destroy
  | elDims (w h : ℚ)
  | parDims (w h : ℚ)
deriving DecidableEq, Repr

/-- Small-step semantics of one event against a session, returning the
new session and the number of sink invocations the event produced.

  * `resize` — the resize-observer callback; it renders only while the
    observer is connected.
  * `renderCall` — a call of `el.render`; the source never detaches
    this function, and the render it performs is the cache-gated one.
  * `transStart`/`animStart` — the start listener: spawns a loop whose
    body runs at once (one render attempt) and registers a once end
    listener for it; the source never removes these listeners, so the
    event has this effect whether or not `destroy` ran.
  * `transEnd`/`animEnd` — the end event: every pending once listener
    of that source fires, each clearing its loop's `running` flag
    exactly when the ancestor's box equals the cache.
  * `frame` — an animation frame: every running loop re-renders.
  * `destroy` — the returned handle's teardown: it only disconnects the
    resize observer.
  * `elDims`/`parDims` — the environment resizes a box. -/
def stepEv (s : Session) : Ev → Session × Nat
  | .resize => if s.observerConnected then renderStep s else (s, 0)
  | .renderCall => renderStep s
  | .transStart =>
      let r := renderStep s
      ({ r.1 with transLoops := r.1.transLoops ++ [{ running := true, endPending := true }] },
        r.2)
  | .transEnd =>
      ({ s with transLoops := s.transLoops.map (endNotifyLoop (ancestorMatchesCache s)) }, 0)
  | .animStart =>
      let r := renderStep s
      ({ r.1 with animLoops := r.1.animLoops ++ [{ running := true, endPending := true }] },
        r.2)
  | .animEnd =>
      ({ s with animLoops := s.animLoops.map (endNotifyLoop (ancestorMatchesCache s)) }, 0)
  | .frame =>
      let r1 := frameLoops s.transLoops s
      let r2 := frameLoops r1.1.animLoops r1.1
      (r2.1, r1.2 + r2.2)
  | .destroy => ({ s with observerConnected := false }, 0)
  | .elDims w h => ({ s with elW := w, elH := h }, 0)
  | .parDims w h => ({ s with parW := w, parH := h }, 0)

/-- A whole event trace, accumulating sink invocations. -/
def runTrace (s : Session) (evs : List Ev) : Session × Nat :=
  evs.foldl (fun acc e => let r := stepEv acc.1 e; (r.1, acc.2 + r.2)) (s, 0)


/-- A fixed style record used by the concrete path scenarios below. -/
def demoStyle : PathStyle := { strokeWidth := "1", stroke := "black", fill := "none" }

/-- Claim C1: the claim states that after `destroy()` no further render
or sink invocation ever occurs.  The code's `destroy` only disconnects
the resize observer; the `transitionstart`/`animationstart` listeners
stay attached, so a transition event arriving after teardown still
spawns a polling loop and commits a render.  This theorem evaluates the
model at the failing trace: after setup on a fresh 200×100 element,
`destroy()` followed by a `transitionstart` (and a frame) produces one
sink invocation, not zero — while the resize path, which `destroy` does
stop, produces none. -/
theorem c1_render_after_destroy :
    (runTrace (setupSvgRenderer {} 200 100 200 100) [.destroy, .transStart, .frame]).2 = 1 ∧
    (runTrace (setupSvgRenderer {} 200 100 200 100) [.destroy, .resize]).2 = 0 := by
  with_unfolding_all decide

/-- Claim C2, counterexample: the claim states that the handle's
`render()` bypasses the dimension-equality cache, invoking the compiler
and the sink even when the current dimensions equal the cached ones.
In the code the manual render function (attached to the element, not
the handle) runs the same cache-gated `createSvgElement`: with the
cache holding (200,100) and the element measuring (200,100), a manual
render produces zero sink invocations. -/
theorem c2_manual_render_respects_cache :
    (stepEv (setupSvgRenderer { dataW := some 200, dataH := some 100 } 200 100 200 100)
        .renderCall).2 = 0 := by
  with_unfolding_all decide

/-- Claim C2, amended: the handle returned by setup carries only
`destroy()`, which disconnects the resize observer (and nothing else);
the render function is attached to the target element instead, and
invoking it performs a cache-gated attempt-render: it skips exactly
when the sampled dimensions equal the cached ones and commits
otherwise. -/
theorem c2_handle_amended (s : Session) :
    (stepEv s .destroy).1 = { s with observerConnected := false } ∧
    (stepEv s .destroy).2 = 0 ∧
    (stepEv s .renderCall).2 =
      (if s.attrs.dataW = some s.elW ∧ s.attrs.dataH = some s.elH then 0 else 1) := by
  refine ⟨rfl, rfl, ?_⟩
  by_cases hc : s.attrs.dataW = some s.elW ∧ s.attrs.dataH = some s.elH
  · simp [stepEv, renderStep, createSvgElementStep, hc]
  · simp [stepEv, renderStep, createSvgElementStep, hc]

/-- Claim C3, counterexample: the claim states that a division
producing a non-finite result yields coordinate 0.  In the code `1/0`
evaluates to Infinity without throwing, so the catch clause never runs,
and the subsequent integer parse of Infinity is NaN: the compiled
command is `M NaN,0`, not `M 0,0`. -/
theorem c3_nonfinite_division_yields_nan :
    createSvgPaths [{ style := demoStyle, path := [(.M, "1/0", "0")] }] 200 100 =
      [{ name := none, visible := none, style := demoStyle, path := "M NaN,0" }] ∧
    ("M NaN,0" : String) ≠ "M 0,0" := by
  with_unfolding_all decide

/-- Claim C3, amended: compilation is total and any operand whose
evaluation throws (malformed expression, unknown token) degrades to
coordinate 0 via the catch clause; sibling records are compiled
independently (compilation is a homomorphism for concatenation of the
record list); but a division producing a non-finite result does not
throw and becomes a NaN coordinate rather than 0. -/
theorem c3_failsafe_amended :
    (∀ (e : String) (w h : ℚ), jsEvalArith (replacedExpr e w h) = none →
        evalExpression e w h = .fin 0) ∧
    (∀ (ps qs : List PathRec) (w h : ℚ),
        createSvgPaths (ps ++ qs) w h = createSvgPaths ps w h ++ createSvgPaths qs w h) ∧
    evalExpression "width +" 200 100 = .fin 0 := by
  refine ⟨?_, ?_, by with_unfolding_all decide⟩
  · intro e w h hnone
    unfold evalExpression
    rw [hnone]
  · intro ps qs w h
    unfold createSvgPaths
    exact List.map_append _ _ _

/-- Witness for the amended claim C3 at concrete inputs. -/
theorem c3_failsafe_amended_witness :
    evalExpression "2 +" 5 7 = .fin 0 ∧
    createSvgPaths ([{ style := demoStyle, path := [(.M, "1", "2")] }] ++ []) 3 4 =
      createSvgPaths [{ style := demoStyle, path := [(.M, "1", "2")] }] 3 4 ++
        createSvgPaths [] 3 4 :=
  ⟨c3_failsafe_amended.1 "2 +" 5 7 (by with_unfolding_all decide),
   c3_failsafe_amended.2.1 [{ style := demoStyle, path := [(.M, "1", "2")] }] [] 3 4⟩

/-- Claim C4: a render is skipped iff the sampled dimensions equal the
cached ones in both components (value equality, absent cache counting
as unequal); consequently two consecutive attempt-renders at identical
dimensions starting from a non-matching cache commit exactly once (the
first commits, the second skips), and a change in a single axis still
triggers a full recompute. -/
theorem c4_skip_iff_cache_equal :
    (∀ (a : ElemAttrs) (w h : ℚ),
        (createSvgElementStep a w h).2 = false ↔ (a.dataW = some w ∧ a.dataH = some h)) ∧
    (∀ (a : ElemAttrs) (w h : ℚ), ¬(a.dataW = some w ∧ a.dataH = some h) →
        (createSvgElementStep a w h).2 = true ∧
        (createSvgElementStep (createSvgElementStep a w h).1 w h).2 = false) ∧
    (∀ (w h w' : ℚ), w' ≠ w →
        (createSvgElementStep { dataW := some w, dataH := some h } w' h).2 = true) ∧
    (∀ (w h h' : ℚ), h' ≠ h →
        (createSvgElementStep { dataW := some w, dataH := some h } w h').2 = true) := by
  refine ⟨?_, ?_, ?_, ?_⟩
  · intro a w h
    by_cases hc : a.dataW = some w ∧ a.dataH = some h
    · simp [createSvgElementStep, hc]
    · simp [createSvgElementStep, hc]
  · intro a w h hc
    refine ⟨by simp [createSvgElementStep, hc], ?_⟩
    simp [createSvgElementStep, hc]
  · intro w h w' hne
    simp [createSvgElementStep, hne.symm]
  · intro w h h' hne
    simp [createSvgElementStep, hne.symm]

/-- Witness for claim C4 at concrete inputs. -/
theorem c4_skip_iff_cache_equal_witness :
    ((createSvgElementStep { dataW := none, dataH := none } 200 100).2 = false ↔
      (({ dataW := none, dataH := none } : ElemAttrs).dataW = some 200 ∧
        ({ dataW := none, dataH := none } : ElemAttrs).dataH = some 100)) ∧
    ((createSvgElementStep { dataW := none, dataH := none } 200 100).2 = true ∧
      (createSvgElementStep
          (createSvgElementStep { dataW := none, dataH := none } 200 100).1 200 100).2 = false) ∧
    (createSvgElementStep { dataW := some 200, dataH := some 100 } 300 100).2 = true ∧
    (createSvgElementStep { dataW := some 200, dataH := some 100 } 200 150).2 = true :=
  ⟨c4_skip_iff_cache_equal.1 { dataW := none, dataH := none } 200 100,
   c4_skip_iff_cache_equal.2.1 { dataW := none, dataH := none } 200 100
     (by with_unfolding_all decide),
   c4_skip_iff_cache_equal.2.2.1 200 100 300 (by with_unfolding_all decide),
   c4_skip_iff_cache_equal.2.2.2 200 100 150 (by with_unfolding_all decide)⟩

/-- Claim C5: compiling the single sub-path
`[MoveTo("10%","10%"), LineTo("90%","50%")]` at dimensions (200,100)
produces exactly `MoveTo(20,10)` then `LineTo(180,50)`: percent markers
on x operands are rewritten with `width`, on y operands with `height`,
evaluated, and truncated to integers. -/
theorem c5_end_to_end :
    createSvgPaths
        [{ name := none, visible := none, style := demoStyle,
           path := [(.M, "10%", "10%"), (.L, "90%", "50%")] }] 200 100 =
      [{ name := none, visible := none, style := demoStyle, path := "M 20,10 L 180,50" }] := by
  with_unfolding_all decide

/-- Claim C6, counterexample: the claim states that for width 200 the
x operand `"50%"` compiles to 50.  The rewrite produces the text
`50* width / 100`, which evaluates to `50 * 200 / 100 = 100`. -/
theorem c6_fifty_percent_is_not_50 :
    compileCoord "* width / 100" "50%" 200 100 = some 100 ∧
    compileCoord "* width / 100" "50%" 200 100 ≠ some 50 := by
  with_unfolding_all decide

/-- Claim C6, amended: for width 200 and height 100, a command whose x
operand is `"50%"` compiles to the integer x coordinate 100
(`50 * width / 100`). -/
theorem c6_fifty_percent_compiles_to_100 :
    createSvgPaths [{ style := demoStyle, path := [(.M, "50%", "0")] }] 200 100 =
      [{ name := none, visible := none, style := demoStyle, path := "M 100,0" }] := by
  with_unfolding_all decide

/-- Claim C7, counterexample: the claim states that substitution never
replaces a partial occurrence of `width`/`height` inside a longer
identifier.  The code replaces every substring occurrence: the
identifier `maxheight` becomes `max100` after the substitution step
with height 100. -/
theorem c7_partial_occurrence_replaced :
    replacedExpr "maxheight" 200 100 = "max100" ∧ ("max100" : String) ≠ "maxheight" := by
  with_unfolding_all decide

/-- Claim C7, amended: substitution is plain global substring
replacement, not word-boundary safe: partial occurrences inside longer
identifiers are rewritten, so the identifier `widthheight` becomes the
digit string `200100` at dimensions (200,100); consequently (shown at
dimensions (20,3), where the resulting digit string is `203`) an
operand such as `widthheight+0` evaluates to a number instead of
failing to 0. -/
theorem c7_substitution_not_word_boundary_safe :
    replacedExpr "widthheight" 200 100 = "200100" ∧
    evalExpression "widthheight+0" 20 3 = .fin 203 := by
  have hw : numToString 200 = "200" := by with_unfolding_all decide
  have hh : numToString 100 = "100" := by with_unfolding_all decide
  have g0 : percentLitRewrite "widthheight" = "widthheight" := by with_unfolding_all decide
  have g1 : replaceSub "width" "200" "widthheight" = "200height" := by with_unfolding_all decide
  have g2 : replaceSub "height" "100" "200height" = "200100" := by with_unfolding_all decide
  have g3 : replaceSub "100" "100" "200100" = "200100" := by with_unfolding_all decide
  have hr1 : replacedExpr "widthheight" 200 100 = "200100" := by
    unfold replacedExpr
    rw [hw, hh, g0, g1, g2, g3]
  exact ⟨hr1, by with_unfolding_all decide⟩

/-- Claim C9: on the corresponding end notification, a polling loop's
`running` flag is cleared exactly when the currently measured box of
the watched ancestor equals the cached dimensions in both components;
if they differ at that moment the loop is left running.  The end
notification itself renders nothing, the animation source mirrors the
transition source, and a loop schedules a render on a frame precisely
according to its `running` flag. -/
theorem c9_loop_stops_iff_ancestor_matches_cache (s : Session)
    (hT : s.transLoops = [{ running := true, endPending := true }])
    (hA : s.animLoops = [{ running := true, endPending := true }]) :
    ((stepEv s .transEnd).1.transLoops =
      [{ running := if s.attrs.dataW = some s.parW ∧ s.attrs.dataH = some s.parH
          then false else true,
         endPending := false }]) ∧
    ((stepEv s .transEnd).2 = 0) ∧
    ((stepEv s .animEnd).1.animLoops =
      [{ running := if s.attrs.dataW = some s.parW ∧ s.attrs.dataH = some s.parH
          then false else true,
         endPending := false }]) ∧
    (∀ t : Session, frameLoops [{ running := false, endPending := false }] t = (t, 0)) ∧
    (∀ t : Session, (frameLoops [{ running := true, endPending := false }] t).2 =
      (renderStep t).2) := by
  refine ⟨?_, rfl, ?_, fun t => rfl, fun t => by simp [frameLoops]⟩
  · by_cases hpq : s.attrs.dataW = some s.parW ∧ s.attrs.dataH = some s.parH
    · simp [stepEv, hT, endNotifyLoop, ancestorMatchesCache, hpq.1, hpq.2]
    · have : ancestorMatchesCache s = false := by
        simp only [ancestorMatchesCache, Bool.and_eq_false_imp, decide_eq_true_eq]
        rcases not_and_or.mp hpq with h1 | h2
        · simp [h1]
        · intro
          simpa using h2
      simp [stepEv, hT, endNotifyLoop, this, hpq]
  · by_cases hpq : s.attrs.dataW = some s.parW ∧ s.attrs.dataH = some s.parH
    · simp [stepEv, hA, endNotifyLoop, ancestorMatchesCache, hpq.1, hpq.2]
    · have : ancestorMatchesCache s = false := by
        simp only [ancestorMatchesCache, Bool.and_eq_false_imp, decide_eq_true_eq]
        rcases not_and_or.mp hpq with h1 | h2
        · simp [h1]
        · intro
          simpa using h2
      simp [stepEv, hA, endNotifyLoop, this, hpq]

/-- A session used to witness claim C9: one pending loop per source,
with the ancestor's box equal to the cached dimensions. -/
def c9Demo : Session :=
  { attrs := { dataW := some 200, dataH := some 100 }, elW := 200, elH := 100,
    parW := 200, parH := 100, observerConnected := true,
    transLoops := [{ running := true, endPending := true }],
    animLoops := [{ running := true, endPending := true }] }

/-- Witness for claim C9: in `c9Demo` the ancestor box equals the
cache, so the end notification stops the loop. -/
theorem c9_loop_stops_witness :
    (stepEv c9Demo .transEnd).1.transLoops = [{ running := false, endPending := false }] := by
  have h := (c9_loop_stops_iff_ancestor_matches_cache c9Demo rfl rfl).1
  simpa [c9Demo] using h

/-- Claim C10, counterexample: the claim states that the cache is
discarded at teardown and starts empty in each session, so a session's
first attempt-render always commits.  The cache lives in the element's
`data-width`/`data-height` attributes, which `destroy()` leaves in
place: after a first session renders at (200,100) and is destroyed, a
second session set up on the same element skips its first
attempt-render at (200,100) — zero sink invocations. -/
theorem c10_cache_carries_over_sessions :
    (runTrace (setupSvgRenderer {} 200 100 200 100) [.resize, .destroy]).2 = 1 ∧
    (runTrace
        (setupSvgRenderer
          (runTrace (setupSvgRenderer {} 200 100 200 100) [.resize, .destroy]).1.attrs
          200 100 200 100)
        [.resize]).2 = 0 := by
  with_unfolding_all decide

/-- Claim C10, amended: the cache is the element's stored attributes:
it is absent on a fresh element (so that session's first attempt-render
commits), it is updated exactly by a committed render and left intact
by a skipped one, and teardown does not discard it — setup adopts
whatever the element already carries, so it persists across sessions on
the same element. -/
theorem c10_cache_lifecycle_amended :
    (∀ w h : ℚ, createSvgElementStep {} w h = ({ dataW := some w, dataH := some h }, true)) ∧
    (∀ (a : ElemAttrs) (w h : ℚ), (createSvgElementStep a w h).2 = false →
        (createSvgElementStep a w h).1 = a) ∧
    (∀ s : Session, (stepEv s .destroy).1.attrs = s.attrs) ∧
    (∀ (a : ElemAttrs) (w1 h1 w2 h2 : ℚ), (setupSvgRenderer a w1 h1 w2 h2).attrs = a) := by
  refine ⟨?_, ?_, fun s => rfl, fun a w1 h1 w2 h2 => rfl⟩
  · intro w h
    simp [createSvgElementStep]
  · intro a w h hfalse
    by_cases hc : a.dataW = some w ∧ a.dataH = some h
    · simp [createSvgElementStep, hc]
    · simp [createSvgElementStep, hc] at hfalse

/-- Witness for the amended claim C10 at concrete inputs. -/
theorem c10_cache_lifecycle_amended_witness :
    createSvgElementStep {} 3 4 = ({ dataW := some 3, dataH := some 4 }, true) ∧
    (createSvgElementStep { dataW := some 3, dataH := some 4 } 3 4).1 =
      { dataW := some 3, dataH := some 4 } ∧
    (stepEv (setupSvgRenderer {} 1 2 1 2) .destroy).1.attrs =
      (setupSvgRenderer {} 1 2 1 2).attrs ∧
    (setupSvgRenderer { dataW := some 3, dataH := some 4 } 1 2 1 2).attrs =
      { dataW := some 3, dataH := some 4 } :=
  ⟨c10_cache_lifecycle_amended.1 3 4,
   c10_cache_lifecycle_amended.2.1 { dataW := some 3, dataH := some 4 } 3 4
     (by with_unfolding_all decide),
   c10_cache_lifecycle_amended.2.2.1 (setupSvgRenderer {} 1 2 1 2),
   c10_cache_lifecycle_amended.2.2.2 { dataW := some 3, dataH := some 4 } 1 2 1 2⟩
